import Mathlib

/-!
A shallow embedding of `src/os/haiku.rs` from the region crate (the Haiku
port of the virtual-memory abstraction layer).

The operating system is modelled as an explicit table of live areas
(`OsState`), and the nondeterministic outcome of `create_area` is supplied by
an oracle value (`CreateResp`).  The global `ALLPAGES` registry, the freshness
counter for `Arc` heap cells and the poisoned flag of the registry mutex are
threaded through every operation as a `LibState`.  Every `Arc::new` in the
source allocates a fresh heap cell, so each `KeyType` construction draws a
fresh identifier from the counter; `KeyType` equality and hashing in the
source compare `Arc::as_ptr`, which the embedding renders as comparison of
those identifiers, never of the stored address values.

Operations return an `Outcome` (ok / typed error / Rust `panic` message)
together with the successor state and the list of native OS calls they
issued, so that claims about which native calls happen can be stated.
-/

namespace RegionHaiku

/-- Page size constant `B_PAGE_SIZE` from the Haiku libc bindings. -/
def B_PAGE_SIZE : Nat := 4096

/-- Native protection flag `B_READ_AREA` (1 << 0). -/
def B_READ_AREA : Nat := 1

/-- Native protection flag `B_WRITE_AREA` (1 << 1). -/
def B_WRITE_AREA : Nat := 2

/-- Native protection flag `B_EXECUTE_AREA` (1 << 2). -/
def B_EXECUTE_AREA : Nat := 4

/-- Success status `B_OK`. -/
def B_OK : Int := 0

/-- Base of the general error codes, `INT32_MIN`. -/
def B_GENERAL_ERROR_BASE : Int := -2147483648

/-- Error status `B_NO_MEMORY`. -/
def B_NO_MEMORY : Int := B_GENERAL_ERROR_BASE

/-- Error status `B_BAD_VALUE`. -/
def B_BAD_VALUE : Int := B_GENERAL_ERROR_BASE + 5

/-- Base of the OS error codes. -/
def B_OS_ERROR_BASE : Int := B_GENERAL_ERROR_BASE + 4096

/-- Error status `B_BAD_ADDRESS`. -/
def B_BAD_ADDRESS : Int := B_OS_ERROR_BASE + 769

/-- Largest value of the 64-bit `usize` type. -/
def USIZE_MAX : Nat := 2 ^ 64 - 1

/-- Rust `usize::saturating_add`. -/
def saturatingAdd (a b : Nat) : Nat := min (a + b) USIZE_MAX

/-- Modelled from the spec: the crate-level `Protection` bitflags type lives
in `src/lib.rs`, which is not among the provided sources.  Per the spec it is
a bitset over {READ, WRITE, EXECUTE} with NONE the empty set, combined with
bitwise or and masked with bitwise and. -/
structure Protection where
  read : Bool
  write : Bool
  execute : Bool
deriving DecidableEq

/-- The empty protection set `Protection::NONE`. -/
def Protection.NONE : Protection := ⟨false, false, false⟩

/-- `Protection::READ`. -/
def Protection.READ : Protection := ⟨true, false, false⟩

/-- `Protection::WRITE`. -/
def Protection.WRITE : Protection := ⟨false, true, false⟩

/-- `Protection::EXECUTE`. -/
def Protection.EXECUTE : Protection := ⟨false, false, true⟩

/-- `Protection::READ_WRITE`. -/
def Protection.READ_WRITE : Protection := ⟨true, true, false⟩

/-- `Protection::READ_WRITE_EXECUTE`. -/
def Protection.READ_WRITE_EXECUTE : Protection := ⟨true, true, true⟩

/-- Bitwise or of two protection bitsets. -/
def Protection.or (a b : Protection) : Protection :=
  ⟨a.read || b.read, a.write || b.write, a.execute || b.execute⟩

/-- Bitwise and of two protection bitsets. -/
def Protection.and (a b : Protection) : Protection :=
  ⟨a.read && b.read, a.write && b.write, a.execute && b.execute⟩

/-- The `MAPPINGS` table of `Protection::from_native` in `haiku.rs`. -/
def fromNativeMappings : List (Nat × Protection) :=
  [(B_READ_AREA, Protection.READ),
   (B_WRITE_AREA, Protection.WRITE),
   (B_EXECUTE_AREA, Protection.EXECUTE)]

/-- `Protection::from_native` from `haiku.rs`: keep the mappings whose native
flag is fully present in `protection`, and fold their bits together with or
starting from `Protection::NONE`. -/
def Protection.from_native (protection : Nat) : Protection :=
  (fromNativeMappings.filter (fun fp => protection &&& fp.1 == fp.1)).foldl
    (fun acc fp => acc.or fp.2) Protection.NONE

/-- The `MAPPINGS` table of `Protection::to_native` in `haiku.rs`. -/
def toNativeMappings : List (Protection × Nat) :=
  [(Protection.READ, B_READ_AREA),
   (Protection.WRITE, B_WRITE_AREA),
   (Protection.EXECUTE, B_EXECUTE_AREA)]

/-- `Protection::to_native` from `haiku.rs`: keep the mappings whose
protection bit is fully present in `self`, and fold their native flags
together with or starting from 0. -/
def Protection.to_native (self : Protection) : Nat :=
  (toNativeMappings.filter (fun fp => (self.and fp.1) == fp.1)).foldl
    (fun acc fp => acc ||| fp.2) 0

/-- Modelled from the spec: the crate-level `Error` type lives in
`src/lib.rs`, which is not among the provided sources.  The `io::Error`
payload of `SystemCall` is rendered by its message string. -/
inductive Error where
  | UnmappedRegion : Error
  | InvalidParameter : String → Error
  | SystemCall : String → Error
deriving DecidableEq

/-- Result of running a piece of Rust code: a value, a typed error, or a
Rust panic carrying its message. -/
inductive Outcome (α : Type) where
  | ok : α → Outcome α
  | err : Error → Outcome α
  | panic : String → Outcome α
deriving DecidableEq

/-- The fields of the native `area_info` record that `haiku.rs` reads or
writes (`area`, `address`, `size`, `protection`); the remaining fields are
filled with constants by the source and never consulted. -/
structure area_info where
  area : Int
  address : Nat
  size : Nat
  protection : Nat
deriving DecidableEq

/-- The live area table of the operating system kernel. -/
structure OsState where
  areas : List (Int × area_info)
deriving DecidableEq

/-- Kernel behaviour of `get_area_info`: return the record of a live area,
or fail when the id names no live area. -/
def getAreaInfo (os : OsState) (id : Int) : Option area_info :=
  (os.areas.find? (fun q => q.1 == id)).map Prod.snd

/-- Kernel behaviour of `delete_area`: drop the area from the live table. -/
def deleteAreaOs (os : OsState) (id : Int) : OsState :=
  ⟨os.areas.filter (fun q => q.1 != id)⟩

/-- Kernel behaviour of `set_area_protection`: rewrite the protection of a
live area and return `B_OK`, or return `B_BAD_VALUE` for a dead id. -/
def setAreaProtectionOs (os : OsState) (id : Int) (prot : Nat) : Int × OsState :=
  if os.areas.any (fun q => q.1 == id) then
    (B_OK, ⟨os.areas.map (fun q => if q.1 == id then (q.1, { q.2 with protection := prot }) else q)⟩)
  else
    (B_BAD_VALUE, os)

/-- Oracle for one `create_area` call.  A `fail e` response stands for the
negative status `-(e+1)` (every Haiku error code is negative); a
`success id addr` response stands for the nonnegative status `id`, the fresh
area id, with the kernel placing the area at base address `addr`. -/
inductive CreateResp where
  | fail : Nat → CreateResp
  | success : Nat → Nat → CreateResp
deriving DecidableEq

/-- Kernel behaviour of `create_area` driven by the oracle response: on
success the new area is recorded in the live table with the requested size
and protection, at the address the kernel chose. -/
def createAreaOs (os : OsState) (resp : CreateResp) (size : Nat) (prot : Nat) :
    Int × OsState :=
  match resp with
  | .fail e => (Int.negSucc e, os)
  | .success id addr =>
      ((id : Int), ⟨((id : Int), ⟨(id : Int), addr, size, prot⟩) :: os.areas⟩)

/-- The `KeyType` wrapper of `haiku.rs`: an `Arc<AtomicPtr<()>>`.  The
`arcId` field is the identity of the `Arc` heap cell (every `Arc::new` in
the source yields a fresh one); `addr` is the address value stored in the
`AtomicPtr`. -/
structure KeyType where
  arcId : Nat
  addr : Nat
deriving DecidableEq

/-- The `PartialEq` (and `Hash`) of `KeyType` in `haiku.rs` compare
`Arc::as_ptr(&self.0)`, i.e. the identity of the `Arc` heap cell, not the
address value stored inside the `AtomicPtr`. -/
def keyEq (a b : KeyType) : Bool := a.arcId == b.arcId

/-- The `Allocation` handle of `haiku.rs`: a cloneable wrapper around an
`Arc<area_id>`.  `rcGroup` is the identity of the shared `Arc` heap cell
(clones of one handle share it), `areaId` the `area_id` stored inside. -/
structure Allocation where
  rcGroup : Nat
  areaId : Int
deriving DecidableEq

/-- The `ALLPAGES` hash map, rendered as an association list. -/
abbrev Registry := List (KeyType × Allocation)

/-- `HashMap::get` under the `KeyType` equality of the source. -/
def hmGet : Registry → KeyType → Option Allocation
  | [], _ => none
  | q :: t, k => if keyEq q.1 k then some q.2 else hmGet t k

/-- `HashMap::insert` under the `KeyType` equality of the source: the new
binding replaces any binding with an equal key. -/
def hmInsert (h : Registry) (k : KeyType) (v : Allocation) : Registry :=
  (k, v) :: h.filter (fun q => !(keyEq q.1 k))

/-- `HashMap::remove` under the `KeyType` equality of the source. -/
def hmRemove (h : Registry) (k : KeyType) : Registry :=
  h.filter (fun q => !(keyEq q.1 k))

/-- The process-wide state threaded through every operation: the kernel area
table, the `ALLPAGES` registry, the freshness counter for `Arc` heap cells,
and whether the `ALLPAGES` mutex is poisoned. -/
structure LibState where
  os : OsState
  allpages : Registry
  nextArcId : Nat
  poisoned : Bool
deriving DecidableEq

/-- One native OS call issued by an operation. -/
inductive NativeCall where
  | createAreaCall : Nat → Nat → NativeCall
  | getAreaInfoCall : Int → NativeCall
  | setAreaProtectionCall : Int → Nat → NativeCall
  | deleteAreaCall : Int → NativeCall
deriving DecidableEq

/-- Result of one library operation: its outcome, the successor state, and
the native calls it issued, in order. -/
structure OpResult (α : Type) where
  out : Outcome α
  st : LibState
  calls : List NativeCall
deriving DecidableEq

/-- Whether a call list contains a `set_area_protection` call. -/
def hasSetProt (l : List NativeCall) : Bool :=
  l.any fun c => match c with
    | .setAreaProtectionCall _ _ => true
    | _ => false

/-- Whether a call list contains a `delete_area` call. -/
def hasDeleteArea (l : List NativeCall) : Bool :=
  l.any fun c => match c with
    | .deleteAreaCall _ => true
    | _ => false

/-- `Allocation::refresh_info` from `haiku.rs`: re-read the `area_info`
record for the stored `area_id` through `get_area_info`; a non-`B_OK` status
becomes `Error::UnmappedRegion`. -/
def refreshInfo (os : OsState) (self : Allocation) : Outcome area_info :=
  match getAreaInfo os self.areaId with
  | some info => .ok info
  | none => .err .UnmappedRegion

/-- `Allocation::as_ptr` from `haiku.rs`: the refreshed base address, with a
bare `panic!()` (empty message) when `refresh_info` fails. -/
def Allocation.as_ptr (os : OsState) (self : Allocation) : Outcome Nat :=
  match refreshInfo os self with
  | .ok info => .ok info.address
  | _ => .panic ""

/-- `Allocation::as_mut_ptr` from `haiku.rs`: same shape as `as_ptr`. -/
def Allocation.as_mut_ptr (os : OsState) (self : Allocation) : Outcome Nat :=
  match refreshInfo os self with
  | .ok info => .ok info.address
  | _ => .panic ""

/-- `Allocation::as_range` from `haiku.rs`: the half-open range from the
refreshed address to `address.saturating_add(size)`, with a bare `panic!()`
when `refresh_info` fails. -/
def Allocation.as_range (os : OsState) (self : Allocation) : Outcome (Nat × Nat) :=
  match refreshInfo os self with
  | .ok info => .ok (info.address, saturatingAdd info.address info.size)
  | _ => .panic ""

/-- `Allocation::len` from `haiku.rs`: the refreshed size, and 0 when
`refresh_info` fails. -/
def Allocation.len (os : OsState) (self : Allocation) : Nat :=
  match refreshInfo os self with
  | .ok v => v.size
  | _ => 0

/-- Modelled from the spec: `page::ceil` from the crate-level `page` module
is not among the provided sources; per the spec the size is rounded up to
the closest page boundary. -/
def pageCeil (size : Nat) : Nat :=
  ((size + B_PAGE_SIZE - 1) / B_PAGE_SIZE) * B_PAGE_SIZE

/-- Modelled from the spec: `page::floor` from the crate-level `page` module
is not among the provided sources; per the spec the address is rounded down
to the containing page boundary. -/
def pageFloor (address : Nat) : Nat :=
  (address / B_PAGE_SIZE) * B_PAGE_SIZE

/-- Modelled from the spec: `util::round_to_page_boundaries` from the
crate-level `util` module is not among the provided sources.  Per the spec
and the doc comment of `alloc_at`, a zero size is rejected with
`InvalidParameter`, the address is rounded down to the containing page
boundary, and the size is extended so the originally requested span is
fully covered, then rounded up to a page multiple. -/
def round_to_page_boundaries (address size : Nat) : Outcome (Nat × Nat) :=
  if size == 0 then .err (.InvalidParameter "size")
  else .ok (pageFloor address, pageCeil (saturatingAdd (address % B_PAGE_SIZE) size))

/-- The page registration loop of `alloc` and `alloc_at`, compiled with a
fuel argument: starting from `s` equal to the area size, while
`s >= B_PAGE_SIZE` the loop decrements `s` by `B_PAGE_SIZE` and inserts a
freshly built `KeyType` for `address + s` mapped to a clone of the handle.
Each iteration consumes one unit of fuel and decreases `s` by at least one,
so with initial fuel `s` the fuel never runs out before the guard fails;
when fuel 0 is reached, `s = 0 < B_PAGE_SIZE` and the guard would fail
anyway, so the fuel version agrees with the source loop. -/
def registerPagesAux : Nat → Registry → Nat → Allocation → Nat → Nat → Registry × Nat
  | 0, h, nextArc, _, _, _ => (h, nextArc)
  | fuel + 1, h, nextArc, inner, address, s =>
      if s ≥ B_PAGE_SIZE then
        let s' := s - B_PAGE_SIZE
        registerPagesAux fuel (hmInsert h ⟨nextArc, address + s'⟩ inner)
          (nextArc + 1) inner address s'
      else (h, nextArc)

/-- The page registration loop of `alloc` and `alloc_at`. -/
def registerPages (h : Registry) (nextArc : Nat) (inner : Allocation)
    (address : Nat) (s : Nat) : Registry × Nat :=
  registerPagesAux s h nextArc inner address s

/-- The page removal loop of `Drop for Allocation`, compiled with a fuel
argument exactly as `registerPagesAux`. -/
def dropPagesAux : Nat → Registry → Nat → Nat → Nat → Registry × Nat
  | 0, h, nextArc, _, _ => (h, nextArc)
  | fuel + 1, h, nextArc, address, s =>
      if s ≥ B_PAGE_SIZE then
        let s' := s - B_PAGE_SIZE
        dropPagesAux fuel (hmRemove h ⟨nextArc, address + s'⟩)
          (nextArc + 1) address s'
      else (h, nextArc)

/-- The page removal loop of `Drop for Allocation`. -/
def dropPages (h : Registry) (nextArc : Nat) (address : Nat) (s : Nat) :
    Registry × Nat :=
  dropPagesAux s h nextArc address s

/-- `protect` from `haiku.rs`: build a fresh `KeyType` for the base address,
take the `ALLPAGES` lock (a poisoned lock is the wildcard arm returning
`Error::UnmappedRegion`), look the key up, refresh the owning handle, and
issue `set_area_protection` on the whole owning area.  The `size` argument
is ignored by the source (its binder is `_size`). -/
def protect (st : LibState) (base : Nat) (_size : Nat) (protection : Protection) :
    OpResult Unit :=
  let addy : KeyType := ⟨st.nextArcId, base⟩
  let st1 : LibState := { st with nextArcId := st.nextArcId + 1 }
  if st1.poisoned then
    ⟨.err .UnmappedRegion, st1, []⟩
  else
    match hmGet st1.allpages addy with
    | some al =>
        match refreshInfo st1.os al with
        | .ok info =>
            let r := setAreaProtectionOs st1.os info.area protection.to_native
            if r.1 < B_OK then
              ⟨.err (.InvalidParameter "bad value"), { st1 with os := r.2 },
                [.getAreaInfoCall al.areaId,
                 .setAreaProtectionCall info.area protection.to_native]⟩
            else
              ⟨.ok (), { st1 with os := r.2 },
                [.getAreaInfoCall al.areaId,
                 .setAreaProtectionCall info.area protection.to_native]⟩
        | _ => ⟨.err .UnmappedRegion, st1, [.getAreaInfoCall al.areaId]⟩
    | none => ⟨.err .UnmappedRegion, st1, []⟩

/-- The body of `alloc` that runs under the `ALLPAGES` lock: round the size
up to a page multiple, call `create_area`, classify a negative status into
the typed errors, and on success wrap the new `area_id` in an `Allocation`,
refresh its info, and register a clone of the handle for every covered
page. -/
def allocLocked (st : LibState) (size : Nat) (protection : Protection)
    (resp : CreateResp) : OpResult Allocation :=
  let size := pageCeil size
  let r := createAreaOs st.os resp size protection.to_native
  let status := r.1
  let os1 := r.2
  let trace0 : List NativeCall := [.createAreaCall size protection.to_native]
  if status < B_OK then
    if status == B_BAD_ADDRESS then
      ⟨.err (.InvalidParameter "bad address"), { st with os := os1 }, trace0⟩
    else if status == B_BAD_VALUE then
      ⟨.err (.InvalidParameter "bad value"), { st with os := os1 }, trace0⟩
    else if status == B_NO_MEMORY then
      ⟨.err (.SystemCall "allocation failed"), { st with os := os1 }, trace0⟩
    else
      ⟨.err (.SystemCall "General Error"), { st with os := os1 }, trace0⟩
  else
    let inner : Allocation := ⟨st.nextArcId, status⟩
    let st2 : LibState := { st with os := os1, nextArcId := st.nextArcId + 1 }
    match refreshInfo os1 inner with
    | .ok a =>
        let rp := registerPages st2.allpages st2.nextArcId inner a.address a.size
        ⟨.ok inner, { st2 with allpages := rp.1, nextArcId := rp.2 },
          trace0 ++ [.getAreaInfoCall inner.areaId]⟩
    | .err e => ⟨.err e, st2, trace0 ++ [.getAreaInfoCall inner.areaId]⟩
    | .panic s => ⟨.panic s, st2, trace0 ++ [.getAreaInfoCall inner.areaId]⟩

/-- `alloc` from `haiku.rs`: a zero size is rejected with
`InvalidParameter("size")` before the lock is taken; a poisoned `ALLPAGES`
lock is `panic!("poisoned pointer")`; otherwise the locked body runs. -/
def alloc (st : LibState) (size : Nat) (protection : Protection)
    (resp : CreateResp) : OpResult Allocation :=
  if size == 0 then
    ⟨.err (.InvalidParameter "size"), st, []⟩
  else if st.poisoned then
    ⟨.panic "poisoned pointer", st, []⟩
  else
    allocLocked st size protection resp

/-- The body of `alloc_at` that runs under the `ALLPAGES` lock, sharing the
shape of `allocLocked` after `round_to_page_boundaries`; the rounded size is
passed to `create_area` unchanged (the `pageCeil` inside `allocLocked` is
idempotent on it). -/
def allocAtLocked (st : LibState) (address size : Nat) (protection : Protection)
    (resp : CreateResp) : OpResult Allocation :=
  match round_to_page_boundaries address size with
  | .ok rs => allocLocked st rs.2 protection resp
  | .err e => ⟨.err e, st, []⟩
  | .panic s => ⟨.panic s, st, []⟩

/-- `alloc_at` from `haiku.rs`: the `ALLPAGES` lock is taken first (a
poisoned lock is `panic!("poisoned pointer")`), then the address and size
are rounded to page boundaries and the allocation proceeds as in `alloc`
with `B_EXACT_ADDRESS`; the kernel placement is still drawn from the
oracle response. -/
def alloc_at (st : LibState) (address size : Nat) (protection : Protection)
    (resp : CreateResp) : OpResult Allocation :=
  if st.poisoned then
    ⟨.panic "poisoned pointer", st, []⟩
  else
    allocAtLocked st address size protection resp

/-- `Drop for Allocation` from `haiku.rs`: every dropped `Allocation` value
(clones included) refreshes its info — failure is
`panic!("refresh_info() failed during a Drop")` — then takes the `ALLPAGES`
lock — poisoning is `panic!("poisoned pointer")` — removes a freshly built
`KeyType` for every covered page (fresh keys, so under the `Arc::as_ptr`
equality the removals never match a stored key), and unconditionally calls
`delete_area` on the area, without consulting the reference count of the
shared `Arc<area_id>`. -/
def dropAllocation (st : LibState) (self : Allocation) : OpResult Unit :=
  match refreshInfo st.os self with
  | .ok inner =>
      if st.poisoned then
        ⟨.panic "poisoned pointer", st, [.getAreaInfoCall self.areaId]⟩
      else
        let rp := dropPages st.allpages st.nextArcId inner.address inner.size
        ⟨.ok (),
          { st with
              os := deleteAreaOs st.os inner.area
              allpages := rp.1
              nextArcId := rp.2 },
          [.getAreaInfoCall self.areaId, .deleteAreaCall inner.area]⟩
  | _ => ⟨.panic "refresh_info() failed during a Drop", st, [.getAreaInfoCall self.areaId]⟩

/-- The `QueryIter` cursor of `haiku.rs`. -/
structure QueryIter where
  info : area_info
  cookie : Int
deriving DecidableEq

/-- `QueryIter::new` from `haiku.rs`: build a fresh `KeyType` for the origin,
take the `ALLPAGES` lock (poisoning is `panic!("poisoned pointer")`), look
the key up — a miss is `InvalidParameter("Could not find any allocated
pages")` — then call `get_area_info` on the found `area_id`.  The source
passes `get_area_info` a pointer into a temporary one-element array copy, so
the `info` field of the returned cursor keeps its default-initialised
contents (only `area` set); a non-`B_OK` status is
`SystemCall("area_info failed")`. -/
def QueryIter.new (st : LibState) (origin : Nat) (_size : Nat) :
    Outcome QueryIter × LibState :=
  let addy : KeyType := ⟨st.nextArcId, origin⟩
  let st1 : LibState := { st with nextArcId := st.nextArcId + 1 }
  if st1.poisoned then
    (.panic "poisoned pointer", st1)
  else
    match hmGet st1.allpages addy with
    | some v =>
        let id := v.areaId
        let qi : QueryIter := ⟨⟨id, 0, 0, 0⟩, 0⟩
        match getAreaInfo st1.os id with
        | some _ => (.ok qi, st1)
        | none => (.err (.SystemCall "area_info failed"), st1)
    | none => (.err (.InvalidParameter "Could not find any allocated pages"), st1)

/-- Invariant of every reachable state: the `arcId` of every key stored in
the registry was drawn from the freshness counter, hence lies below its
current value, so a freshly built key can never compare equal to a stored
one. -/
def keysFresh (st : LibState) : Prop :=
  ∀ p ∈ st.allpages, p.1.arcId < st.nextArcId

/-- The empty initial state: no live areas, empty registry, counter 0, lock
healthy. -/
def st0 : LibState := ⟨⟨[]⟩, [], 0, false⟩

/-- The empty initial state with the `ALLPAGES` mutex poisoned by an earlier
panic. -/
def stPoisoned : LibState := ⟨⟨[]⟩, [], 0, true⟩

/-- A freshly built lookup key never matches any key stored in the registry,
because the stored keys were drawn from earlier values of the freshness
counter and `keyEq` compares only those identities. -/
theorem hmGet_fresh (h : Registry) (n addr : Nat)
    (hf : ∀ q ∈ h, q.1.arcId < n) : hmGet h ⟨n, addr⟩ = none := by
  induction h with
  | nil => rfl
  | cons q t ih =>
      have hq : q.1.arcId ≠ n := Nat.ne_of_lt (hf q (List.mem_cons_self q t))
      have hne : keyEq q.1 ⟨n, addr⟩ = false := by
        simp [keyEq, hq]
      simpa [hmGet, hne] using ih (fun r hr => hf r (List.mem_cons_of_mem q hr))

/-- Rounding up to a page boundary yields a multiple of the page size. -/
theorem pageCeil_mod (s : Nat) : pageCeil s % B_PAGE_SIZE = 0 := by
  simp [pageCeil, Nat.mul_mod_left]

/-- Rounding up to a page boundary never shrinks the size. -/
theorem le_pageCeil (s : Nat) : s ≤ pageCeil s := by
  simp only [pageCeil, B_PAGE_SIZE]
  omega

/-- On a failing `create_area` status, the locked body of `alloc` returns a
typed error. -/
theorem allocLocked_fail_out (st : LibState) (size : Nat) (p : Protection) (e : Nat) :
    ∃ er, (allocLocked st size p (.fail e)).out = .err er := by
  have hlt : Int.negSucc e < B_OK := Int.negSucc_lt_zero e
  simp only [allocLocked, createAreaOs, hlt, if_true, if_pos]
  split
  · exact ⟨_, rfl⟩
  · split
    · exact ⟨_, rfl⟩
    · split
      · exact ⟨_, rfl⟩
      · exact ⟨_, rfl⟩

/-- On a successful `create_area` response, the locked body of `alloc`
returns the wrapped handle and records the new area, of the rounded size,
at the head of the kernel area table. -/
theorem allocLocked_success_out (st : LibState) (size : Nat) (p : Protection)
    (id addr : Nat) :
    (allocLocked st size p (.success id addr)).out = .ok ⟨st.nextArcId, (id : Int)⟩ ∧
    (allocLocked st size p (.success id addr)).st.os =
      ⟨((id : Int), ⟨(id : Int), addr, pageCeil size, p.to_native⟩) :: st.os.areas⟩ := by
  have hnn : ¬ ((id : Int) < B_OK) := by
    simp only [B_OK]
    exact not_lt.mpr (Int.natCast_nonneg id)
  simp [allocLocked, createAreaOs, refreshInfo, getAreaInfo, hnn]

/-- Claim C1 (refuted, code bug): registry keys do not compare by address
value.  Concretely: `alloc(100, READ_WRITE)` succeeds (oracle: kernel
creates area 7 at base 4096), which stores the registry key with `arcId` 1
for address 4096; the later `protect(4096, 1, READ_WRITE)` builds an
independent key with the same address value 4096 but fresh `arcId` 2, the
two keys compare unequal under the `Arc::as_ptr` equality of `KeyType`, and
the lookup misses, so `protect` returns `UnmappedRegion` instead of
resolving to the owning handle. -/
theorem c1_registry_key_identity_bug :
    (alloc st0 100 Protection.READ_WRITE (.success 7 4096)).out = .ok ⟨0, 7⟩ ∧
    (alloc st0 100 Protection.READ_WRITE (.success 7 4096)).st.allpages =
      [(⟨1, 4096⟩, ⟨0, 7⟩)] ∧
    keyEq ⟨1, 4096⟩ ⟨2, 4096⟩ = false ∧
    (protect (alloc st0 100 Protection.READ_WRITE (.success 7 4096)).st 4096 1
        Protection.READ_WRITE).out = .err .UnmappedRegion := by decide

/-- Claim C2 (refuted, code bug): dropping one clone while another owning
reference exists does release the OS resource.  Concretely: after
`alloc(100, READ_WRITE)` (oracle: area 9 at base 8192) the registry holds a
clone of the returned handle (same `Arc<area_id>` group 0); dropping the
returned handle issues `delete_area` even though that clone is still live,
and the clone is in fact still in the registry afterwards because the
removal loop builds fresh keys that match nothing. -/
theorem c2_drop_releases_despite_live_clone :
    (alloc st0 100 Protection.READ_WRITE (.success 9 8192)).out = .ok ⟨0, 9⟩ ∧
    (alloc st0 100 Protection.READ_WRITE (.success 9 8192)).st.allpages =
      [(⟨1, 8192⟩, ⟨0, 9⟩)] ∧
    hasDeleteArea (dropAllocation
        (alloc st0 100 Protection.READ_WRITE (.success 9 8192)).st ⟨0, 9⟩).calls = true ∧
    (dropAllocation (alloc st0 100 Protection.READ_WRITE (.success 9 8192)).st
        ⟨0, 9⟩).st.allpages = [(⟨1, 8192⟩, ⟨0, 9⟩)] := by decide

/-- Claim C3 (counterexample): with the registry mutex poisoned, `protect`
returns the normal error value `UnmappedRegion` rather than panicking, so
not every operation treats a poisoned lock as fatal. -/
theorem c3_protect_poisoned_returns_error_value :
    stPoisoned.poisoned = true ∧
    (protect stPoisoned 4096 4096 Protection.READ).out = .err .UnmappedRegion := by decide

/-- Claim C3 (amended): in every state with a poisoned registry mutex,
`alloc` (on a nonzero size), `alloc_at`, `QueryIter::new` and the drop path
panic, but `protect` returns `Error::UnmappedRegion` instead of
panicking. -/
theorem c3_poisoned_lock_fatal_except_protect (st : LibState)
    (hp : st.poisoned = true) :
    (∀ size p resp, size ≠ 0 →
      (alloc st size p resp).out = .panic "poisoned pointer") ∧
    (∀ address size p resp,
      (alloc_at st address size p resp).out = .panic "poisoned pointer") ∧
    (∀ origin size, (QueryIter.new st origin size).1 = .panic "poisoned pointer") ∧
    (∀ a, (dropAllocation st a).out = .panic "poisoned pointer" ∨
          (dropAllocation st a).out = .panic "refresh_info() failed during a Drop") ∧
    (∀ base size p, (protect st base size p).out = .err .UnmappedRegion) := by
  refine ⟨?_, ?_, ?_, ?_, ?_⟩
  · intro size p resp hsz
    simp [alloc, hp, hsz]
  · intro address size p resp
    simp [alloc_at, hp]
  · intro origin size
    simp [QueryIter.new, hp]
  · intro a
    rcases hri : refreshInfo st.os a with info | e | s <;>
      simp [dropAllocation, hri, hp]
  · intro base size p
    simp [protect, hp]

/-- Claim C3 (witness): the amended statement at the concrete poisoned
initial state. -/
theorem c3_poisoned_lock_fatal_except_protect_witness :
    stPoisoned.poisoned = true ∧
    (alloc stPoisoned 1 Protection.READ (.success 7 4096)).out = .panic "poisoned pointer" ∧
    (alloc_at stPoisoned 4096 1 Protection.READ (.success 7 4096)).out =
      .panic "poisoned pointer" ∧
    (QueryIter.new stPoisoned 4096 1).1 = .panic "poisoned pointer" ∧
    ((dropAllocation stPoisoned ⟨0, 7⟩).out = .panic "poisoned pointer" ∨
     (dropAllocation stPoisoned ⟨0, 7⟩).out = .panic "refresh_info() failed during a Drop") ∧
    (protect stPoisoned 4096 1 Protection.READ).out = .err .UnmappedRegion := by
  have h := c3_poisoned_lock_fatal_except_protect stPoisoned (by decide)
  exact ⟨by decide, h.1 1 Protection.READ (.success 7 4096) (by decide),
    h.2.1 4096 1 Protection.READ (.success 7 4096), h.2.2.1 4096 1,
    h.2.2.2.1 ⟨0, 7⟩, h.2.2.2.2 4096 1 Protection.READ⟩

/-- Claim C4 (counterexample): on a handle whose area the OS no longer
recognizes (area id 11 absent from an empty kernel table), `as_ptr`,
`as_mut_ptr` and `as_range` all panic instead of returning a typed
result. -/
theorem c4_accessors_panic_on_stale_handle :
    Allocation.as_ptr ⟨[]⟩ ⟨3, 11⟩ = .panic "" ∧
    Allocation.as_mut_ptr ⟨[]⟩ ⟨3, 11⟩ = .panic "" ∧
    Allocation.as_range ⟨[]⟩ ⟨3, 11⟩ = .panic "" := by decide

/-- Claim C4 (amended): `alloc` on a zero size returns the typed
`InvalidParameter("size")` error without panicking, but `as_ptr`,
`as_mut_ptr` and `as_range` on a handle whose area the OS no longer
recognizes panic (with an empty message), and `len` returns 0 there. -/
theorem c4_no_panic_amended (st : LibState) (p : Protection) (resp : CreateResp)
    (os : OsState) (a : Allocation) (h : getAreaInfo os a.areaId = none) :
    (alloc st 0 p resp).out = .err (.InvalidParameter "size") ∧
    Allocation.as_ptr os a = .panic "" ∧
    Allocation.as_mut_ptr os a = .panic "" ∧
    Allocation.as_range os a = .panic "" ∧
    Allocation.len os a = 0 := by
  refine ⟨rfl, ?_, ?_, ?_, ?_⟩ <;>
    simp [Allocation.as_ptr, Allocation.as_mut_ptr, Allocation.as_range,
      Allocation.len, refreshInfo, h]

/-- Claim C4 (witness): the amended statement at a concrete stale handle. -/
theorem c4_no_panic_amended_witness :
    getAreaInfo ⟨[]⟩ (Allocation.mk 5 13).areaId = none ∧
    Allocation.as_ptr ⟨[]⟩ ⟨5, 13⟩ = .panic "" ∧
    Allocation.len ⟨[]⟩ ⟨5, 13⟩ = 0 := by
  have h := c4_no_panic_amended st0 Protection.READ (.fail 0) ⟨[]⟩ ⟨5, 13⟩ (by decide)
  exact ⟨by decide, h.2.1, h.2.2.2.2⟩

/-- Claim C5 (confirmed): for every representable `Protection` value,
translating to the native flags and back is the identity. -/
theorem c5_protection_roundtrip (p : Protection) :
    Protection.from_native p.to_native = p := by
  rcases p with ⟨r, w, x⟩
  cases r <;> cases w <;> cases x <;> rfl

/-- Claim C6 (confirmed): whenever `alloc(size, p)` succeeds with a handle,
the length the handle reports afterwards is a multiple of the page size and
at least the requested size. -/
theorem c6_alloc_len_page_multiple (st : LibState) (size : Nat) (p : Protection)
    (resp : CreateResp) (a : Allocation) (_hsz : 0 < size)
    (hok : (alloc st size p resp).out = .ok a) :
    Allocation.len (alloc st size p resp).st.os a % B_PAGE_SIZE = 0 ∧
    size ≤ Allocation.len (alloc st size p resp).st.os a := by
  by_cases h0 : size = 0
  · subst h0; simp [alloc] at hok
  · by_cases hp : st.poisoned
    · simp [alloc, h0, hp] at hok
    · have halloc : alloc st size p resp = allocLocked st size p resp := by
        simp [alloc, h0, hp]
      rw [halloc] at hok ⊢
      rcases resp with e | ⟨id, addr⟩
      · obtain ⟨er, her⟩ := allocLocked_fail_out st size p e
        rw [her] at hok
        cases hok
      · obtain ⟨hout, hos⟩ := allocLocked_success_out st size p id addr
        rw [hout] at hok
        have ha : a = ⟨st.nextArcId, (id : Int)⟩ := by
          cases hok
          rfl
        subst ha
        rw [hos]
        have hlen : Allocation.len
            ⟨((id : Int), ⟨(id : Int), addr, pageCeil size, p.to_native⟩) :: st.os.areas⟩
            ⟨st.nextArcId, (id : Int)⟩ = pageCeil size := by
          simp [Allocation.len, refreshInfo, getAreaInfo]
        rw [hlen]
        exact ⟨pageCeil_mod size, le_pageCeil size⟩

/-- Claim C6 (witness): a concrete successful allocation of 100 bytes
(oracle: area 21 at base 65536) whose reported length is 4096. -/
theorem c6_alloc_len_page_multiple_witness :
    0 < 100 ∧
    (alloc st0 100 Protection.READ (.success 21 65536)).out = .ok ⟨0, 21⟩ ∧
    (Allocation.len (alloc st0 100 Protection.READ (.success 21 65536)).st.os ⟨0, 21⟩ %
        B_PAGE_SIZE = 0 ∧
     100 ≤ Allocation.len (alloc st0 100 Protection.READ (.success 21 65536)).st.os ⟨0, 21⟩) :=
  ⟨by decide, by decide,
    c6_alloc_len_page_multiple st0 100 Protection.READ (.success 21 65536) ⟨0, 21⟩
      (by decide) (by decide)⟩

/-- Claim C7 (counterexample): when no mapping owned by the library can be
located for the origin (empty registry), `QueryIter::new` fails with
`InvalidParameter`, not with `UnmappedRegion`. -/
theorem c7_queryiter_new_wrong_error_kind :
    (QueryIter.new st0 12288 1).1 =
      .err (.InvalidParameter "Could not find any allocated pages") ∧
    (QueryIter.new st0 12288 1).1 ≠ .err .UnmappedRegion := by decide

/-- Claim C7 (amended): when `QueryIter::new` is given an origin address for
which no mapping owned by this library can be located, it fails with
`InvalidParameter("Could not find any allocated pages")` rather than with
`UnmappedRegion`. -/
theorem c7_queryiter_new_invalid_parameter (st : LibState) (origin size : Nat)
    (hf : keysFresh st) (hp : st.poisoned = false)
    (_hn : ∀ q ∈ st.allpages, q.1.addr ≠ origin) :
    (QueryIter.new st origin size).1 =
      .err (.InvalidParameter "Could not find any allocated pages") := by
  have hg : hmGet st.allpages ⟨st.nextArcId, origin⟩ = none := hmGet_fresh _ _ _ hf
  simp [QueryIter.new, hp, hg]

/-- Claim C7 (witness): the amended statement at the empty initial state. -/
theorem c7_queryiter_new_invalid_parameter_witness :
    keysFresh st0 ∧ st0.poisoned = false ∧ (∀ q ∈ st0.allpages, q.1.addr ≠ 20480) ∧
    (QueryIter.new st0 20480 4096).1 =
      .err (.InvalidParameter "Could not find any allocated pages") :=
  ⟨(fun _ hq => nomatch hq), rfl, (fun _ hq => nomatch hq),
    c7_queryiter_new_invalid_parameter st0 20480 4096 (fun _ hq => nomatch hq) rfl
      (fun _ hq => nomatch hq)⟩

/-- Claim C8 (confirmed): `protect` on an address with no registry entry
fails with `UnmappedRegion` and never issues the native
`set_area_protection` call. -/
theorem c8_protect_unregistered_unmapped (st : LibState) (base size : Nat)
    (p : Protection) (hf : keysFresh st)
    (_hn : ∀ q ∈ st.allpages, q.1.addr ≠ base) :
    (protect st base size p).out = .err .UnmappedRegion ∧
    hasSetProt (protect st base size p).calls = false := by
  have hg : hmGet st.allpages ⟨st.nextArcId, base⟩ = none := hmGet_fresh _ _ _ hf
  by_cases hp : st.poisoned
  · simp [protect, hp, hasSetProt]
  · simp [protect, hp, hg, hasSetProt]

/-- Claim C8 (witness): the statement at the empty initial state. -/
theorem c8_protect_unregistered_unmapped_witness :
    keysFresh st0 ∧ (∀ q ∈ st0.allpages, q.1.addr ≠ 24576) ∧
    ((protect st0 24576 4096 Protection.WRITE).out = .err .UnmappedRegion ∧
     hasSetProt (protect st0 24576 4096 Protection.WRITE).calls = false) :=
  ⟨(fun _ hq => nomatch hq), (fun _ hq => nomatch hq),
    c8_protect_unregistered_unmapped st0 24576 4096 Protection.WRITE
      (fun _ hq => nomatch hq) (fun _ hq => nomatch hq)⟩

/-- Claim C9 (confirmed): `alloc(0, p)` always fails with
`InvalidParameter("size")`, in every state and for every oracle response. -/
theorem c9_alloc_zero_invalid_parameter (st : LibState) (p : Protection)
    (resp : CreateResp) :
    (alloc st 0 p resp).out = .err (.InvalidParameter "size") := rfl

/-- Claim C10 (confirmed): the size argument of `protect` has no effect on
its behaviour: outcome, successor state and native calls are identical for
any two sizes, because the native protection change is applied to the whole
owning area. -/
theorem c10_protect_ignores_size (st : LibState) (base s1 s2 : Nat)
    (p : Protection) :
    protect st base s1 p = protect st base s2 p := rfl

end RegionHaiku
